import Mathlib

/-!
Verification of the aligned-memory allocator in `src/benchmark.cpp`.

The C++ code is shallowly embedded over natural numbers: pointers
(`void*`, `uintptr_t`, `size_t`) are 64-bit machine words, modelled as
`Nat` reduced modulo `W = 2 ^ 64` exactly where the C++ arithmetic wraps.
The underlying unaligned allocator (`malloc`) is an abstract parameter
`alloc : Nat → Option Nat` mapping a request size in bytes to the raw
address of a fresh block, or `none` on exhaustion.  Memory holding the
pointer-sized metadata slot is a map from byte addresses to pointer
values, updated only by the single store the allocator performs.
-/

namespace AlignedMem

/-- `sizeof(void*)` on the 64-bit target platform. -/
def ptrSize : Nat := 8

/-- The size of the address space: `size_t` / `uintptr_t` arithmetic wraps modulo `W`. -/
def W : Nat := 2 ^ 64

/-- The bitmask `~(alignment - 1)` of `benchmark.cpp` line 12, evaluated in
64-bit `size_t` arithmetic: `alignment - 1` wraps modulo `W` and bitwise
complement of a 64-bit value `x` is `(W - 1) - x`. -/
def mask (alignment : Nat) : Nat := (W - 1) - ((alignment + (W - 1)) % W)

/-- The byte count passed to `malloc` on line 8: `size + alignment + sizeof(void*)`
computed in `size_t` arithmetic (wraps modulo `W`). -/
def rawRequestSize (size alignment : Nat) : Nat := (size + alignment + ptrSize) % W

/-- The aligned address computed on line 12:
`(raw + alignment + sizeof(void*)) & ~(alignment - 1)` in `uintptr_t` arithmetic. -/
def alignedAddr (raw alignment : Nat) : Nat :=
  ((raw + alignment + ptrSize) % W) &&& mask alignment

/-- The byte address of the metadata slot `reinterpret_cast<void**>(a)[-1]`:
the pointer value `a - sizeof(void*)` in wrapping `uintptr_t` arithmetic. -/
def metaAddr (a : Nat) : Nat := (a + (W - ptrSize)) % W

/-- Pointer-granular store into the metadata memory. -/
def store (mem : Nat → Nat) (addr val : Nat) : Nat → Nat :=
  fun x => if x = addr then val else mem x

/-- `aligned_malloc` (lines 6-19): request `rawRequestSize` bytes from the raw
allocator; on failure return `nullptr` and leave memory untouched; on success
compute the aligned address, store the raw address in the slot just below it,
and return the aligned address together with the updated memory. -/
def aligned_malloc (alloc : Nat → Option Nat) (mem : Nat → Nat)
    (size alignment : Nat) : Option Nat × (Nat → Nat) :=
  match alloc (rawRequestSize size alignment) with
  | none => (none, mem)
  | some raw_mem =>
      let aligned_addr := alignedAddr raw_mem alignment
      (some aligned_addr, store mem (metaAddr aligned_addr) raw_mem)

/-- `aligned_free` (lines 22-27): on a null handle do nothing; otherwise read
the raw address from the metadata slot and hand it to the underlying
deallocator.  The result is the address passed to `free`
(`none` when `free` is not called). -/
def aligned_free (mem : Nat → Nat) (p : Option Nat) : Option Nat :=
  match p with
  | none => none
  | some a => some (mem (metaAddr a))

/-! ### Arithmetic facts about the bitmask -/

lemma W_pos : 0 < W := by decide

lemma two_pow_lt_W {k : Nat} (hk : k < 64) : 2 ^ k < W :=
  Nat.pow_lt_pow_right (by norm_num) hk

/-- For a power-of-two alignment `2 ^ k`, the C mask `~(2 ^ k - 1)` is the
64-bit word with ones exactly in bit positions `k … 63`. -/
lemma mask_two_pow {k : Nat} (hk : k < 64) : mask (2 ^ k) = W - 2 ^ k := by
  have h1 : 1 ≤ 2 ^ k := Nat.one_le_two_pow
  have h2 : 2 ^ k < W := two_pow_lt_W hk
  unfold mask
  have h3 : 2 ^ k + (W - 1) = W + (2 ^ k - 1) := by omega
  rw [h3, Nat.add_mod_left, Nat.mod_eq_of_lt (by omega)]
  omega

/-- Masking a 64-bit value with the high mask `W - 2 ^ k` clears its low `k`
bits, i.e. rounds it down to a multiple of `2 ^ k`. -/
lemma land_high_mask {x : Nat} (k : Nat) (hx : x < W) (hk : k ≤ 64) :
    x &&& (W - 2 ^ k) = 2 ^ k * (x / 2 ^ k) := by
  have hW : W - 2 ^ k = (2 ^ (64 - k) - 1) <<< k := by
    rw [Nat.shiftLeft_eq, Nat.sub_mul, one_mul, ← pow_add]
    have h64 : 64 - k + k = 64 := by omega
    rw [h64]
    rfl
  have hR : 2 ^ k * (x / 2 ^ k) = (x >>> k) <<< k := by
    rw [Nat.shiftRight_eq_div_pow, Nat.shiftLeft_eq, Nat.mul_comm]
  rw [hW, hR]
  apply Nat.eq_of_testBit_eq
  intro i
  rw [Nat.testBit_and, Nat.testBit_shiftLeft, Nat.testBit_shiftLeft,
    Nat.testBit_shiftRight, Nat.testBit_two_pow_sub_one]
  by_cases hik : k ≤ i
  · by_cases hi64 : i < 64
    · simp [hik, Nat.add_sub_cancel' hik]
      omega
    · have hxi : x.testBit i = false := by
        apply Nat.testBit_lt_two_pow
        calc x < W := hx
        _ = 2 ^ 64 := rfl
        _ ≤ 2 ^ i := Nat.pow_le_pow_right (by norm_num) (by omega)
      simp [hik, Nat.add_sub_cancel' hik, hxi]
  · simp [hik]

/-- Rounding down with the mask: for a raw address `r` whose over-allocated
offset does not overflow the address space, the computed aligned address is
`r + 2 ^ k + ptrSize` rounded down to the nearest multiple of `2 ^ k`. -/
lemma alignedAddr_eq {r k : Nat} (hk : k < 64)
    (hfit : r + 2 ^ k + ptrSize < W) :
    alignedAddr r (2 ^ k) =
      (r + 2 ^ k + ptrSize) - (r + 2 ^ k + ptrSize) % 2 ^ k := by
  unfold alignedAddr
  rw [mask_two_pow hk, Nat.mod_eq_of_lt hfit,
    land_high_mask k hfit (Nat.le_of_lt hk |>.trans (by omega))]
  have := Nat.div_add_mod (r + 2 ^ k + ptrSize) (2 ^ k)
  omega

/-- The aligned address is always a multiple of the power-of-two alignment,
with no assumption on the raw address. -/
lemma alignedAddr_mod {r k : Nat} (hk : k < 64) :
    alignedAddr r (2 ^ k) % 2 ^ k = 0 := by
  unfold alignedAddr
  rw [mask_two_pow hk,
    land_high_mask k (Nat.mod_lt _ W_pos) (Nat.le_of_lt hk |>.trans (by omega))]
  exact Nat.mul_mod_right _ _

/-- Headroom: the aligned address sits at least `ptrSize` bytes above the raw
address (when the over-allocated block fits in the address space). -/
lemma alignedAddr_ge {r k : Nat} (hk : k < 64)
    (hfit : r + 2 ^ k + ptrSize < W) :
    r + ptrSize < alignedAddr r (2 ^ k) := by
  have h1 : 1 ≤ 2 ^ k := Nat.one_le_two_pow
  have h2 := alignedAddr_eq hk hfit
  have h3 : (r + 2 ^ k + ptrSize) % 2 ^ k < 2 ^ k := Nat.mod_lt _ (by omega)
  omega

/-- The aligned address never exceeds the quantity it rounds down. -/
lemma alignedAddr_le {r k : Nat} (hk : k < 64)
    (hfit : r + 2 ^ k + ptrSize < W) :
    alignedAddr r (2 ^ k) ≤ r + 2 ^ k + ptrSize := by
  have h2 := alignedAddr_eq hk hfit
  omega

/-! ### The benchmark driver -/

/-- The fixed benchmark matrix run by `main` (lines 60-64):
`(size, alignment, iterations)` triples, in program order. -/
def configs : List (Nat × Nat × Nat) :=
  [(64, 16, 100000), (128, 32, 100000), (256, 64, 100000),
   (1024, 64, 100000), (1024 * 1024, 64, 1000)]

/-- The two lines one `benchmark` call prints (lines 42-44 and 53-55), given the
two elapsed-microsecond readings: the reference facility first, then the custom
primitive. -/
def benchmarkLines (tStd tCustom : Nat) : List String :=
  [s!"std::aligned_alloc: {tStd} us", s!"aligned_malloc: {tCustom} us"]

/-- The full standard output of `main`: the configurations in order, two lines
each.  Wall-clock readings come from the platform clock, modelled as an oracle
from a configuration and a strategy (`false` = the `std::aligned_alloc` loop,
`true` = the `aligned_malloc` loop) to a microsecond count. -/
def mainOutput (time : Nat × Nat × Nat → Bool → Nat) : List String :=
  configs.flatMap fun c => benchmarkLines (time c false) (time c true)

/-- The exit code of `main` (line 66). -/
def mainExitCode : Nat := 0

/-! ### The claims -/

/-- C1: for every size, every power-of-two alignment `2 ^ k` and every raw
address the underlying allocator may return, a successful `aligned_malloc`
returns the computed aligned address as its handle, and that handle is an
exact multiple of the alignment. -/
theorem C1_handle_aligned (alloc : Nat → Option Nat) (mem : Nat → Nat)
    (size k r : Nat) (hk : k < 64)
    (h : alloc (rawRequestSize size (2 ^ k)) = some r) :
    (aligned_malloc alloc mem size (2 ^ k)).1 = some (alignedAddr r (2 ^ k)) ∧
    alignedAddr r (2 ^ k) % 2 ^ k = 0 := by
  refine ⟨by simp [aligned_malloc, h], alignedAddr_mod hk⟩

theorem C1_handle_aligned_witness :
    (aligned_malloc (fun _ => some 12345) (fun _ => 0) 64 (2 ^ 4)).1 =
      some (alignedAddr 12345 (2 ^ 4)) ∧
    alignedAddr 12345 (2 ^ 4) % 2 ^ 4 = 0 :=
  C1_handle_aligned (fun _ => some 12345) (fun _ => 0) 64 4 12345 (by decide) rfl

/-- C2: on a successful allocation, the pointer-sized slot `sizeof(void*)`
bytes below the returned handle holds exactly the raw address the underlying
allocator returned, and `aligned_free` on that handle reads that slot and
passes exactly the raw address to the underlying deallocator. -/
theorem C2_roundtrip (alloc : Nat → Option Nat) (mem : Nat → Nat)
    (size alignment r : Nat)
    (h : alloc (rawRequestSize size alignment) = some r) :
    (aligned_malloc alloc mem size alignment).1 = some (alignedAddr r alignment) ∧
    (aligned_malloc alloc mem size alignment).2
      (metaAddr (alignedAddr r alignment)) = r ∧
    aligned_free (aligned_malloc alloc mem size alignment).2
      (aligned_malloc alloc mem size alignment).1 = some r := by
  simp [aligned_malloc, h, aligned_free, store]

theorem C2_roundtrip_witness :
    (aligned_malloc (fun _ => some 1000) (fun _ => 0) 64 16).1 =
      some (alignedAddr 1000 16) ∧
    (aligned_malloc (fun _ => some 1000) (fun _ => 0) 64 16).2
      (metaAddr (alignedAddr 1000 16)) = 1000 ∧
    aligned_free (aligned_malloc (fun _ => some 1000) (fun _ => 0) 64 16).2
      (aligned_malloc (fun _ => some 1000) (fun _ => 0) 64 16).1 = some 1000 :=
  C2_roundtrip (fun _ => some 1000) (fun _ => 0) 64 16 1000 rfl

/-- C3: when the underlying raw allocator reports exhaustion, `aligned_malloc`
returns the null handle to its caller and leaves memory completely unchanged
(no store is performed), with no fatal error. -/
theorem C3_exhaustion (alloc : Nat → Option Nat) (mem : Nat → Nat)
    (size alignment : Nat)
    (h : alloc (rawRequestSize size alignment) = none) :
    aligned_malloc alloc mem size alignment = (none, mem) := by
  simp [aligned_malloc, h]

theorem C3_exhaustion_witness :
    aligned_malloc (fun _ => none) (fun _ => 0) 64 16 = (none, fun _ => 0) :=
  C3_exhaustion (fun _ => none) (fun _ => 0) 64 16 rfl

/-- C4: for a raw address whose over-allocated block fits in the address
space and a power-of-two alignment `2 ^ k`, the bitmask computation equals
`raw + alignment + ptrSize` rounded down to the nearest multiple of the
alignment, and the handle is at least `ptrSize` bytes above the raw address,
so the metadata slot fits below the handle inside the raw block. -/
theorem C4_mask_headroom (r k : Nat) (hk : k < 64)
    (hfit : r + 2 ^ k + ptrSize < W) :
    alignedAddr r (2 ^ k) =
      (r + 2 ^ k + ptrSize) - (r + 2 ^ k + ptrSize) % 2 ^ k ∧
    r + ptrSize ≤ alignedAddr r (2 ^ k) :=
  ⟨alignedAddr_eq hk hfit, Nat.le_of_lt (alignedAddr_ge hk hfit)⟩

theorem C4_mask_headroom_witness :
    alignedAddr 1000 (2 ^ 4) =
      (1000 + 2 ^ 4 + ptrSize) - (1000 + 2 ^ 4 + ptrSize) % 2 ^ 4 ∧
    1000 + ptrSize ≤ alignedAddr 1000 (2 ^ 4) :=
  C4_mask_headroom 1000 4 (by decide) (by decide)

/-- C5: for a successful allocation of `size + alignment + ptrSize` bytes that
fits in the address space, the `size` payload bytes starting at the handle are
disjoint from the `ptrSize` metadata bytes just below the handle, and the
payload lies entirely inside the raw block: it starts at or after the raw
address and ends no later than the raw address plus the raw request size. -/
theorem C5_payload_safe (r k size : Nat) (hk : k < 64)
    (hfit : r + (size + 2 ^ k + ptrSize) < W) :
    (∀ b, alignedAddr r (2 ^ k) - ptrSize ≤ b ∧ b < alignedAddr r (2 ^ k) →
        ¬(alignedAddr r (2 ^ k) ≤ b ∧ b < alignedAddr r (2 ^ k) + size)) ∧
    r ≤ alignedAddr r (2 ^ k) ∧
    alignedAddr r (2 ^ k) + size ≤ r + rawRequestSize size (2 ^ k) := by
  have hfit2 : r + 2 ^ k + ptrSize < W := by omega
  have h1 := alignedAddr_ge hk hfit2
  have h2 := alignedAddr_le hk hfit2
  have h3 : rawRequestSize size (2 ^ k) = size + 2 ^ k + ptrSize := by
    unfold rawRequestSize
    exact Nat.mod_eq_of_lt (by omega)
  refine ⟨fun b hb hcontra => by omega, by omega, by omega⟩

theorem C5_payload_safe_witness :
    (∀ b, alignedAddr 1000 (2 ^ 4) - ptrSize ≤ b ∧ b < alignedAddr 1000 (2 ^ 4) →
        ¬(alignedAddr 1000 (2 ^ 4) ≤ b ∧ b < alignedAddr 1000 (2 ^ 4) + 64)) ∧
    1000 ≤ alignedAddr 1000 (2 ^ 4) ∧
    alignedAddr 1000 (2 ^ 4) + 64 ≤ 1000 + rawRequestSize 64 (2 ^ 4) :=
  C5_payload_safe 1000 4 64 (by decide) (by decide)

/-- C6: `aligned_free` on a null handle reads no metadata, calls the
underlying deallocator on nothing, and does not fail. -/
theorem C6_free_null (mem : Nat → Nat) : aligned_free mem none = none := rfl

/-- C7: a zero-byte request follows the same arithmetic as positive sizes:
with a successful raw allocation that fits in the address space,
`aligned_malloc 0 alignment` returns a non-null handle that is an exact
multiple of the power-of-two alignment. -/
theorem C7_zero_size (alloc : Nat → Option Nat) (mem : Nat → Nat) (k r : Nat)
    (hk : k < 64) (hfit : r + 2 ^ k + ptrSize < W)
    (h : alloc (rawRequestSize 0 (2 ^ k)) = some r) :
    (aligned_malloc alloc mem 0 (2 ^ k)).1 = some (alignedAddr r (2 ^ k)) ∧
    alignedAddr r (2 ^ k) ≠ 0 ∧
    alignedAddr r (2 ^ k) % 2 ^ k = 0 := by
  have h1 := alignedAddr_ge hk hfit
  exact ⟨by simp [aligned_malloc, h], by omega, alignedAddr_mod hk⟩

theorem C7_zero_size_witness :
    (aligned_malloc (fun _ => some 1000) (fun _ => 0) 0 (2 ^ 4)).1 =
      some (alignedAddr 1000 (2 ^ 4)) ∧
    alignedAddr 1000 (2 ^ 4) ≠ 0 ∧
    alignedAddr 1000 (2 ^ 4) % 2 ^ 4 = 0 :=
  C7_zero_size (fun _ => some 1000) (fun _ => 0) 4 1000 (by decide) (by decide) rfl

/-- C8: the entry point runs exactly the five configurations
`(64,16,100000), (128,32,100000), (256,64,100000), (1024,64,100000),
(1048576,64,1000)` in that order, prints two labelled timing lines per
configuration (reference facility first, then the custom primitive) for ten
lines total, and exits with code 0. -/
theorem C8_driver_output (time : Nat × Nat × Nat → Bool → Nat) :
    configs = [(64, 16, 100000), (128, 32, 100000), (256, 64, 100000),
      (1024, 64, 100000), (1048576, 64, 1000)] ∧
    mainOutput time =
      [s!"std::aligned_alloc: {time (64, 16, 100000) false} us",
       s!"aligned_malloc: {time (64, 16, 100000) true} us",
       s!"std::aligned_alloc: {time (128, 32, 100000) false} us",
       s!"aligned_malloc: {time (128, 32, 100000) true} us",
       s!"std::aligned_alloc: {time (256, 64, 100000) false} us",
       s!"aligned_malloc: {time (256, 64, 100000) true} us",
       s!"std::aligned_alloc: {time (1024, 64, 100000) false} us",
       s!"aligned_malloc: {time (1024, 64, 100000) true} us",
       s!"std::aligned_alloc: {time (1048576, 64, 1000) false} us",
       s!"aligned_malloc: {time (1048576, 64, 1000) true} us"] ∧
    (mainOutput time).length = 10 ∧
    mainExitCode = 0 := by
  refine ⟨rfl, ?_, ?_, rfl⟩ <;> simp [mainOutput, configs, benchmarkLines]

/-- C9: the raw request size `size + alignment + sizeof(void*)` is computed in
wrapping `size_t` arithmetic, so at `size = 2 ^ 64 - 1`, `alignment = 16` it
wraps to 23 and is strictly smaller than `size`: the over-allocation argument
does not hold for every input. -/
theorem C9_request_wraps :
    rawRequestSize (2 ^ 64 - 1) 16 = 23 ∧
    rawRequestSize (2 ^ 64 - 1) 16 < 2 ^ 64 - 1 := by
  constructor <;> decide

/-- C10: with `alignment = 0` the mask `~(alignment - 1)` evaluates to 0 in
`size_t` arithmetic, so the computed aligned address is 0 regardless of the
raw address, and the metadata store targets the `ptrSize` bytes below address
0 — i.e. wrapping address `2 ^ 64 - ptrSize` — rather than a slot inside the
raw allocation. -/
theorem C10_zero_alignment (alloc : Nat → Option Nat) (mem : Nat → Nat)
    (size r : Nat) (h : alloc (rawRequestSize size 0) = some r) :
    mask 0 = 0 ∧
    aligned_malloc alloc mem size 0 = (some 0, store mem (W - ptrSize) r) := by
  have hmask : mask 0 = 0 := by decide
  have haddr : alignedAddr r 0 = 0 := by
    unfold alignedAddr
    rw [hmask, Nat.and_zero]
  have hmeta : metaAddr 0 = W - ptrSize := by decide
  refine ⟨hmask, ?_⟩
  simp [aligned_malloc, h, haddr, hmeta]

theorem C10_zero_alignment_witness :
    mask 0 = 0 ∧
    aligned_malloc (fun _ => some 5) (fun _ => 0) 64 0 =
      (some 0, store (fun _ => 0) (W - ptrSize) 5) :=
  C10_zero_alignment (fun _ => some 5) (fun _ => 0) 64 5 rfl

end AlignedMem
